import Mathlib

/-
  Verification of the AskMyData repository's natural-language specification
  against its code.

  Frontend code (src/frontend/...) is embedded directly from the TypeScript
  source.  The backend RAG pipeline (VectorIndex, IntentClassifier, Retriever,
  Verifier) is not present in the repository snapshot; those components are
  modelled from the specification, as marked in each doc comment.
-/

namespace AskMyData

/-! ## Frontend data model (src/frontend/lib/api.ts) -/

/-- The `AskResponse` interface of src/frontend/lib/api.ts (lines 46-54):
the declared shape of a successful response of `askApi.ask`.  Its fields are
exactly `success`, `chat_id`, `question`, `answer`, `num_chunks_used`,
`sources`, `timestamp`; in particular it declares no `context` field. -/
structure AskResponse where
  success : Bool
  chat_id : Int
  question : String
  answer : String
  num_chunks_used : Nat
  sources : List String
  timestamp : String
deriving DecidableEq, Repr

/-- The `FileInfo` interface of src/frontend/lib/api.ts (lines 27-36).
`num_chunks?: number` is an optional field, modelled as `Option Nat`. -/
structure FileInfo where
  file_id : Nat
  filename : String
  original_filename : String
  file_type : String
  upload_date : String
  num_rows : Nat
  num_columns : Nat
  num_chunks : Option Nat
deriving DecidableEq, Repr

/-- The `ApiError` class of src/frontend/lib/api.ts (lines 57-62): carries the
HTTP status, a message and optional details. -/
structure ApiError where
  status : Nat
  message : String
  details : Option String
deriving DecidableEq, Repr

/-- Outcome of `handleResponse`: either the parsed body, a thrown `ApiError`,
or the rejection of `response.json()` on an `ok` response whose body is not
valid JSON (a plain parse error, not an `ApiError`). -/
inductive HandleOutcome (T : Type) where
  | ok (v : T)
  | apiError (e : ApiError)
  | jsonRejection
deriving DecidableEq, Repr

/-- The generic JSON error body read in the `!response.ok` branch of
`handleResponse`: the `error` and `details` fields of the parsed body, each
possibly absent. -/
structure ErrBody where
  error : Option String
  details : Option String
deriving DecidableEq, Repr

/-- An HTTP `Response` as `handleResponse` consumes it: the `ok` flag, the
`status`, the body parsed as the expected type `T` (`none` when the body is
not valid JSON of that shape), and the body parsed as a generic error object
(`none` when the body is not valid JSON at all). -/
structure HttpResponse (T : Type) where
  ok : Bool
  status : Nat
  okBody : Option T
  errBody : Option ErrBody

/-- JavaScript `a || b` on an optional string `a`: the fallback is taken when
the field is absent (`undefined`) or the empty string (falsy). -/
def jsOrElse (a : Option String) (b : String) : String :=
  match a with
  | some s => if s = "" then b else s
  | none => b

/-- `handleResponse` (src/frontend/lib/api.ts lines 65-75): on `!response.ok`
it parses the body as JSON (substituting `\x7b error: 'Unknown error' \x7d` when
parsing fails, per the `.catch`) and throws an `ApiError` with the status and
`error.error || "HTTP <status>"`; on an `ok` response it returns
`response.json()`, which rejects when the body is not valid JSON. -/
def handleResponse {T : Type} (r : HttpResponse T) : HandleOutcome T :=
  if r.ok then
    match r.okBody with
    | some v => HandleOutcome.ok v
    | none => HandleOutcome.jsonRejection
  else
    let e := r.errBody.getD ⟨some "Unknown error", none⟩
    HandleOutcome.apiError
      ⟨r.status, jsOrElse e.error ("HTTP " ++ toString r.status), e.details⟩

/-! ## Chat input (src/frontend/components/chat/chat-input.tsx) -/

/-- Strip leading whitespace characters from a character list. -/
def dropWs : List Char → List Char
  | [] => []
  | c :: cs => if c.isWhitespace then dropWs cs else c :: cs

/-- JavaScript `String.prototype.trim()`: strip whitespace from both ends of
the string. -/
def jsTrim (s : String) : String :=
  String.mk (dropWs (dropWs s.data.reverse).reverse)

/-- `handleSubmit` of `ChatInput` (chat-input.tsx lines 25-31): when
`input.trim()` is truthy (non-empty) and `isLoading` is false it calls
`onSend(input.trim())` and resets the input to `""`; otherwise it does
nothing.  Returns the argument passed to `onSend` (if any) and the input
state afterwards. -/
def chatInputSubmit (input : String) (isLoading : Bool) : Option String × String :=
  if jsTrim input ≠ "" ∧ isLoading = false then
    (some (jsTrim input), "")
  else
    (none, input)

/-! ## Chat interface (src/frontend/components/chat/chat-interface.tsx) -/

/-- A chat `Message` (chat-interface.tsx lines 10-16): id, role, content,
optional context, timestamp. -/
inductive Role where
  | user
  | assistant
deriving DecidableEq, Repr

structure Message where
  id : String
  role : Role
  content : String
  context : Option (List String)
  timestamp : Nat
deriving DecidableEq, Repr

/-- The expression `response.context` in `handleSend` (chat-interface.tsx line
93): the `AskResponse` interface declares no `context` field, so on a response
carrying exactly the declared fields this property access evaluates to
`undefined`, modelled as `none`.  The retrieval sources actually declared on
the response live in `response.sources` and are never read by `handleSend`. -/
def askResponseContext (_ : AskResponse) : Option String := none

/-- The user message `handleSend` appends first (chat-interface.tsx lines
75-82); `now` stands for `Date.now()`. -/
def mkUserMessage (now : Nat) (content : String) : Message :=
  ⟨toString now, Role.user, content, none, now⟩

/-- The assistant message appended on success (chat-interface.tsx lines
89-97): content is `response.answer`; context is
`response.context ? [response.context] : undefined`. -/
def mkAiMessage (now : Nat) (r : AskResponse) : Message :=
  ⟨toString (now + 1), Role.assistant, r.answer,
    match askResponseContext r with
    | some c => some [c]
    | none => none,
    now⟩

/-- The assistant message appended on failure (chat-interface.tsx lines
101-106): a fixed error template around `error.message ||
'Failed to process your question'`. -/
def mkErrorMessage (now : Nat) (e : ApiError) : Message :=
  ⟨toString (now + 1), Role.assistant,
    "Sorry, I encountered an error: " ++
      jsOrElse (some e.message) "Failed to process your question" ++
      ". Please make sure you have uploaded a file first.",
    none, now⟩

/-- `handleSend` (chat-interface.tsx lines 74-118) restricted to its effect on
the message list: append the user message, then append exactly one assistant
message — the answer on success, the error template on failure. -/
def handleSend (now : Nat) (prev : List Message) (content : String)
    (result : Except ApiError AskResponse) : List Message :=
  let afterUser := prev ++ [mkUserMessage now content]
  match result with
  | Except.ok r => afterUser ++ [mkAiMessage now r]
  | Except.error e => afterUser ++ [mkErrorMessage now e]

/-! ## File upload (src/frontend/components/upload/file-dropzone.tsx) -/

/-- The response of `filesApi.upload` (api.ts line 131). -/
structure UploadResponse where
  success : Bool
  file : FileInfo
deriving DecidableEq, Repr

/-- The description string of the success toast in `handleUpload`
(file-dropzone.tsx line 158):
`Processed $\x7bresponse.file.num_chunks\x7d chunks from $\x7bresponse.file.original_filename\x7d`.
When `num_chunks` is absent the template literal renders `undefined`. -/
def uploadToastDescription (f : FileInfo) : String :=
  "Processed " ++
    (match f.num_chunks with
     | some n => toString n
     | none => "undefined") ++
    " chunks from " ++ f.original_filename

/-- The success toast of `handleUpload` (file-dropzone.tsx lines 143-160):
fired only when `response.success` is true. -/
def handleUploadToast (r : UploadResponse) : Option (String × String) :=
  if r.success then
    some ("File uploaded successfully!", uploadToastDescription r.file)
  else
    none

/-! ## Files page (src/unnamed/part_007, `FilesPage`) -/

/-- `handleDelete` of the files page (part_007 lines 55-76) restricted to its
effect on the `files` state: if the user does not confirm, nothing happens;
if `api.files.delete` succeeds, `setFiles(files.filter(f => f.file_id !==
fileId))`; if it fails, the list is left as it was. -/
def handleDelete (confirmed : Bool) (files : List FileInfo) (fileId : Nat)
    (success : Bool) : List FileInfo :=
  if confirmed then
    if success then files.filter (fun f => f.file_id ≠ fileId) else files
  else
    files

/-- C7 counterexample input: a non-ok response whose body is not valid JSON
(`errBody = none`). -/
def c7BadResponse : HttpResponse Nat := ⟨false, 500, none, none⟩

/-- C5 failing input: a successful `askApi.ask` response conforming exactly to
the declared `AskResponse` interface, with non-empty retrieval sources. -/
def c5Response : AskResponse :=
  ⟨true, 1, "What is the total amount?", "The total is 350", 2,
    ["row 1", "row 2"], "2024-01-01T00:00:00Z"⟩

/-- C6 counterexample input: a successful upload whose `FileInfo` omits the
optional `num_chunks` field. -/
def c6File : FileInfo :=
  ⟨7, "data.csv", "data.csv", "csv", "2024-01-01", 3, 2, none⟩

/-! ## Backend RAG pipeline

The backend pipeline (Chunker, Embedder, VectorIndex, IntentClassifier,
Retriever, Verifier) is not part of the repository snapshot — only its
documentation and its frontend callers are.  The definitions below are
modelled from the specification, as each doc comment states. -/

/-- Modelled from the spec: a Chunk (§3) — retrievable unit with `chunk_id`,
`file_id` and `text` (metadata fields are subsumed by the abstract metadata
filter predicate below). -/
structure Chunk where
  chunk_id : String
  file_id : Nat
  text : String
deriving DecidableEq, Repr

/-- Modelled from the spec: an EmbeddingRecord (§3) — `chunk_id` plus the
embedding vector, with rational coordinates. -/
structure EmbeddingRecord where
  chunk_id : String
  vector : List ℚ
deriving DecidableEq, Repr

/-- Modelled from the spec: a Collection (§3) — an append-only sequence of
(EmbeddingRecord, Chunk) pairs in insertion order. -/
abbrev Collection := List (EmbeddingRecord × Chunk)

/-- A search candidate: its insertion index within the collection, its chunk
and its similarity score against the query. -/
structure Scored where
  idx : Nat
  chunk : Chunk
  score : ℚ
deriving DecidableEq, Repr

/-- The candidates of a search: entries passing the metadata filter, tagged
with their insertion index and scored against the query by `sim`.
Modelled from the spec (§4.3). -/
def scoredFrom (sim : List ℚ → List ℚ → ℚ) (q : List ℚ) (filt : Chunk → Bool) :
    Nat → Collection → List Scored
  | _, [] => []
  | i, e :: es =>
    if filt e.2 then
      ⟨i, e.2, sim q e.1.vector⟩ :: scoredFrom sim q filt (i + 1) es
    else
      scoredFrom sim q filt (i + 1) es

/-- The ranking order of search results: strictly greater similarity first;
equal similarity broken by insertion index, first-added first (§4.3 tie-break
rule). -/
def rankLe (a b : Scored) : Prop :=
  b.score < a.score ∨ (a.score = b.score ∧ a.idx ≤ b.idx)

instance : DecidableRel rankLe := fun _ _ =>
  inferInstanceAs (Decidable (_ ∨ _))

instance : IsTotal Scored rankLe where
  total a b := by
    rcases lt_trichotomy a.score b.score with h | h | h
    · exact Or.inr (Or.inl h)
    · rcases Nat.le_total a.idx b.idx with hi | hi
      · exact Or.inl (Or.inr ⟨h, hi⟩)
      · exact Or.inr (Or.inr ⟨h.symm, hi⟩)
    · exact Or.inl (Or.inl h)

instance : IsTrans Scored rankLe where
  trans _ _ _ hab hbc := by
    rcases hab with hab | ⟨hab, hi⟩
    · rcases hbc with hbc | ⟨hbc, _⟩
      · exact Or.inl (lt_trans hbc hab)
      · exact Or.inl (hbc ▸ hab)
    · rcases hbc with hbc | ⟨hbc, hj⟩
      · exact Or.inl (by rw [hab]; exact hbc)
      · exact Or.inr ⟨hab.trans hbc, le_trans hi hj⟩

/-- Modelled from the spec: `VectorIndex.search` (§4.3), keeping the internal
insertion index on each result.  `k = 0` is the `InvalidK` input error
(`none`); otherwise the candidates passing `filt` are sorted by descending
similarity with ties broken by insertion order, and the first `k` are
returned (all of them when fewer than `k` exist).  The real-valued cosine
similarity is abstracted as the score function `sim`: the ordering contract
holds for every score function, in particular for cosine. -/
def searchRanked (sim : List ℚ → List ℚ → ℚ) (coll : Collection) (q : List ℚ)
    (k : Nat) (filt : Chunk → Bool) : Option (List Scored) :=
  if k = 0 then none
  else some ((List.insertionSort rankLe (scoredFrom sim q filt 0 coll)).take k)

/-- Modelled from the spec: `VectorIndex.search` (§4.3) as the caller sees it:
the RetrievalResult of (chunk, similarity) pairs. -/
def search (sim : List ℚ → List ℚ → ℚ) (coll : Collection) (q : List ℚ)
    (k : Nat) (filt : Chunk → Bool) : Option (List (Chunk × ℚ)) :=
  (searchRanked sim coll q k filt).map (List.map (fun e => (e.chunk, e.score)))

/-- Dot product on rational vectors, used as a concrete score function in
witnesses. -/
def dotProduct (a b : List ℚ) : ℚ := (List.zipWith (fun x y => x * y) a b).sum

/-- Modelled from the spec: Retriever (§4.5) — embeds the question (via the
external Embedder `embed`) and searches the index with a metadata filter
restricting to `file_id` when provided. -/
def retrieve (embed : String → List ℚ) (sim : List ℚ → List ℚ → ℚ)
    (q : String) (coll : Collection) (k : Nat) (fileId : Option Nat) :
    Option (List (Chunk × ℚ)) :=
  search sim coll (embed q) k
    (fun c =>
      match fileId with
      | some fid => c.file_id == fid
      | none => true)

/-! ### IntentClassifier, modelled from the spec (§4.4) -/

/-- Lower-cased character sequence of a string (case-insensitive matching). -/
def toLowerChars (s : String) : List Char := s.data.map Char.toLower

/-- Whether the second character list begins with the first. -/
def startsWithChars : List Char → List Char → Bool
  | [], _ => true
  | _ :: _, [] => false
  | a :: as, b :: bs => a = b && startsWithChars as bs

/-- Whether `needle` occurs as a contiguous subsequence of the list. -/
def containsChars (needle : List Char) : List Char → Bool
  | [] => needle.isEmpty
  | c :: cs => startsWithChars needle (c :: cs) || containsChars needle cs

/-- Whether `first` occurs and `second` occurs after it (for the two-word
visualization patterns "show ... by" and "display ... trend"). -/
def containsThen (first second : List Char) : List Char → Bool
  | [] => false
  | c :: cs =>
    if startsWithChars first (c :: cs) then
      containsChars second (List.drop first.length (c :: cs))
    else
      containsThen first second cs

/-- Case-insensitive containment of a keyword marker in the question. -/
def matchesMarker (q marker : String) : Bool :=
  containsChars (toLowerChars marker) (toLowerChars q)

/-- Modelled from the spec: the mutation markers of §4.4. -/
def mutationMarkers : List String :=
  ["delete", "update", "change the data", "remove row", "edit the file"]

/-- Modelled from the spec: the single-word visualization markers of §4.4. -/
def vizWordMarkers : List String :=
  ["plot", "chart", "graph", "histogram", "visualize"]

/-- Whether the question matches at least one mutation marker
(case-insensitive). -/
def isMutationRequest (q : String) : Bool :=
  mutationMarkers.any (fun m => matchesMarker q m)

/-- Whether the question matches at least one visualization marker
(case-insensitive), including the two-word patterns. -/
def isVisualization (q : String) : Bool :=
  vizWordMarkers.any (fun m => matchesMarker q m) ||
    containsThen (toLowerChars "show") (toLowerChars "by") (toLowerChars q) ||
    containsThen (toLowerChars "display") (toLowerChars "trend") (toLowerChars q)

/-- Modelled from the spec: the Intent type (§3). -/
inductive Intent where
  | INFO_QUERY
  | VISUALIZATION
  | MUTATION_REQUEST
  | UNKNOWN
deriving DecidableEq, Repr

/-- Modelled from the spec: `classify` (§4.4) — mutation markers take
precedence over visualization markers (fail-safe bias), otherwise
`INFO_QUERY`. -/
def classify (q : String) : Intent :=
  if isMutationRequest q then Intent.MUTATION_REQUEST
  else if isVisualization q then Intent.VISUALIZATION
  else Intent.INFO_QUERY

/-! ### Answer pipeline, modelled from the spec (§2, §4.5, §4.6, §8) -/

/-- The fixed-policy refusal message for mutation requests (§4.4). -/
def refusalMessage : String :=
  "This assistant cannot modify your data; mutation requests are refused."

/-- The explicit no-data answer for an empty collection (§4.5, §8). -/
def noDataMessage : String :=
  "No data available. Please upload a file first."

/-- Modelled from the spec: AnswerRecord (§3), restricted to the fields the
claims speak about, plus a flag recording whether the Generator backend was
invoked. -/
structure AnswerRecord where
  question : String
  answer : String
  context : List (Chunk × ℚ)
  generatorInvoked : Bool
deriving DecidableEq, Repr

/-- Modelled from the spec: PromptBuilder (§4.6) — fixed instruction, the
retrieved chunks in ranked order tagged with their source identifiers, then
the question verbatim. -/
def buildPrompt (question : String) (ctx : List (Chunk × ℚ)) : String :=
  "Answer only from the supplied context; state explicitly when the context is insufficient.\n" ++
    String.join (ctx.map (fun p => "[" ++ p.1.chunk_id ++ "] " ++ p.1.text ++ "\n")) ++
    question

/-- Modelled from the spec: the answer pipeline (§2 control flow): mutation
intent is refused with the fixed-policy message before retrieval; an empty
retrieval yields the explicit no-data answer without invoking the Generator;
otherwise the external Generator backend `gen` is invoked on the built
prompt. -/
def answerQuestion (gen : String → String) (embed : String → List ℚ)
    (sim : List ℚ → List ℚ → ℚ) (q : String) (coll : Collection) (k : Nat)
    (fileId : Option Nat) : AnswerRecord :=
  match classify q with
  | Intent.MUTATION_REQUEST => ⟨q, refusalMessage, [], false⟩
  | _ =>
    let ctx := (retrieve embed sim q coll k fileId).getD []
    if ctx.isEmpty then ⟨q, noDataMessage, [], false⟩
    else ⟨q, gen (buildPrompt q ctx), ctx, true⟩

/-! ### Verifier, modelled from the spec (§4.8) -/

/-- Modelled from the spec: the verification status of §3 (`none`, `matched`,
`corrected`). -/
inductive VerifyStatus where
  | none
  | matched
  | corrected
deriving DecidableEq, Repr

/-- Accumulate a leading run of digits into a natural number. -/
def digitsToNat (acc : Nat) : List Char → Nat
  | [] => acc
  | c :: cs => if c.isDigit then digitsToNat (acc * 10 + (c.toNat - 48)) cs else acc

/-- The first maximal digit run of a character list, if any. -/
def firstNumber : List Char → Option Nat
  | [] => none
  | c :: cs =>
    if c.isDigit then some (digitsToNat (c.toNat - 48) cs) else firstNumber cs

/-- Modelled from the spec: the Verifier's numeric-claim extraction (§4.8), a
simple pattern match for number tokens — the first number stated in the
answer text, as a rational. -/
def extractNumeric (s : String) : Option ℚ :=
  (firstNumber s.data).map (fun n => (n : ℚ))

/-- Modelled from the spec: the aggregations the Verifier recomputes (§4.8). -/
inductive Agg where
  | sum
  | count
  | average
deriving DecidableEq, Repr

/-- Apply an aggregation to a numeric column of the original table. -/
def applyAgg : Agg → List ℚ → ℚ
  | Agg.sum, col => col.sum
  | Agg.count, col => (col.length : ℚ)
  | Agg.average, col => col.sum / (col.length : ℚ)

/-- Modelled from the spec: Verifier (§4.8).  When the answer text carries an
extractable numeric claim, the claim is recomputed directly against the
original table; within the relative tolerance the status is `matched` and the
model's value is kept, beyond it the status is `corrected` and the recomputed
value — not the model's — is surfaced.  Without a numeric claim the status is
`none`. -/
def verify (answerText : String) (agg : Agg) (column : List ℚ) (tol : ℚ) :
    VerifyStatus × Option ℚ :=
  match extractNumeric answerText with
  | Option.none => (VerifyStatus.none, Option.none)
  | Option.some v =>
    let c := applyAgg agg column
    if |v - c| ≤ tol * |c| then (VerifyStatus.matched, some v)
    else (VerifyStatus.corrected, some c)

/-! ## Theorems -/

/-- C7: the claim as stated fails on `c7BadResponse`: the backend supplied no
`error` field (the body is not JSON), so the claim prescribes the message
`"HTTP 500"`, but `handleResponse` throws the `.catch` substitute
`"Unknown error"`. -/
theorem c7_counterexample :
    handleResponse c7BadResponse =
      HandleOutcome.apiError ⟨500, "Unknown error", none⟩ ∧
    (c7BadResponse.errBody.bind ErrBody.error).getD
        ("HTTP " ++ toString c7BadResponse.status) = "HTTP 500" ∧
    "Unknown error" ≠ "HTTP 500" := by
  refine ⟨rfl, rfl, ?_⟩
  decide

/-- C7 (amended): `handleResponse` throws an `ApiError` iff the response is
not ok; that `ApiError` carries the HTTP status and the message
`error.error || "HTTP <status>"` where the error body defaults to
`\x7b error: "Unknown error" \x7d` when the body is not valid JSON; an ok
response whose body parses returns the parsed body without raising, and an ok
response whose body does not parse raises the `response.json()` rejection,
which is not an `ApiError`. -/
theorem c7_handleResponse {T : Type} (r : HttpResponse T) :
    ((∃ e, handleResponse r = HandleOutcome.apiError e) ↔ r.ok = false) ∧
    (∀ e, handleResponse r = HandleOutcome.apiError e →
      e.status = r.status ∧
      e.message =
        (match r.errBody with
         | some b => jsOrElse b.error ("HTTP " ++ toString r.status)
         | none => "Unknown error")) ∧
    (r.ok = true → ∀ v, r.okBody = some v →
      handleResponse r = HandleOutcome.ok v) ∧
    (r.ok = true → r.okBody = none →
      handleResponse r = HandleOutcome.jsonRejection) := by
  obtain ⟨ok, status, okBody, errBody⟩ := r
  cases ok with
  | false =>
    refine ⟨⟨fun _ => rfl, fun _ => ⟨_, rfl⟩⟩, ?_, ?_, ?_⟩
    · intro e he
      have he2 : HandleOutcome.apiError (T := T)
          ⟨status,
           jsOrElse (errBody.getD ⟨some "Unknown error", none⟩).error
             ("HTTP " ++ toString status),
           (errBody.getD ⟨some "Unknown error", none⟩).details⟩ =
          HandleOutcome.apiError e := he
      injection he2 with h3
      subst h3
      cases errBody with
      | none => exact ⟨rfl, rfl⟩
      | some b => exact ⟨rfl, rfl⟩
    · intro h; simp at h
    · intro h; simp at h
  | true =>
    cases okBody with
    | none =>
      refine ⟨⟨?_, ?_⟩, ?_, ?_, ?_⟩
      · rintro ⟨e, he⟩
        exact absurd he (by simp [handleResponse])
      · intro h; simp at h
      · intro e he
        exact absurd he (by simp [handleResponse])
      · intro _ v hv; cases hv
      · intro _ _; rfl
    | some v =>
      refine ⟨⟨?_, ?_⟩, ?_, ?_, ?_⟩
      · rintro ⟨e, he⟩
        exact absurd he (by simp [handleResponse])
      · intro h; simp at h
      · intro e he
        exact absurd he (by simp [handleResponse])
      · intro _ w hw
        cases hw
        rfl
      · intro _ h; cases h

/-- C7 witness: the amended theorem applied to a concrete ok response. -/
theorem c7_witness :
    handleResponse (T := Nat) ⟨true, 200, some 7, none⟩ = HandleOutcome.ok 7 :=
  (c7_handleResponse ⟨true, 200, some 7, none⟩).2.2.1 rfl 7 rfl

/-- C8: `handleSend` always appends exactly two messages in order — first the
user message with the question text, then exactly one assistant message (the
answer on success, the error template on failure); the user message is part
of the final list in both cases (never removed). -/
theorem c8_handleSend (now : Nat) (prev : List Message) (content : String)
    (result : Except ApiError AskResponse) :
    handleSend now prev content result =
      prev ++ [mkUserMessage now content,
        match result with
        | Except.ok r => mkAiMessage now r
        | Except.error e => mkErrorMessage now e] ∧
    (mkUserMessage now content).role = Role.user ∧
    (mkUserMessage now content).content = content ∧
    (∀ r, (mkAiMessage now r).role = Role.assistant ∧
      (mkAiMessage now r).content = r.answer) ∧
    (∀ e, (mkErrorMessage now e).role = Role.assistant) := by
  refine ⟨?_, rfl, rfl, fun r => ⟨rfl, rfl⟩, fun e => rfl⟩
  cases result <;> simp [handleSend]

/-- C5: evaluation at the failing input.  The response carries its retrieval
context in `sources`, but the assistant message built by `handleSend` carries
no context: line 93 of chat-interface.tsx reads `response.context`, a field
the `AskResponse` interface does not declare, so the attached context is
`undefined` and the declared `sources` are dropped. -/
theorem c5_context_dropped :
    c5Response.success = true ∧
    c5Response.sources = ["row 1", "row 2"] ∧
    (mkAiMessage 0 c5Response).context = none ∧
    (mkAiMessage 0 c5Response).content = c5Response.answer := by
  exact ⟨rfl, rfl, rfl, rfl⟩

/-- C6: the claim as stated fails on a successful upload response without
`num_chunks` (the field is optional in `FileInfo`): the confirmation toast
renders the template literal of `undefined`, surfacing no integer count. -/
theorem c6_counterexample :
    handleUploadToast ⟨true, c6File⟩ =
      some ("File uploaded successfully!",
        "Processed undefined chunks from data.csv") ∧
    c6File.num_chunks = none := by
  exact ⟨rfl, rfl⟩

/-- C6 (amended): whenever a successful upload response does carry
`num_chunks`, the upload confirmation toast surfaces exactly that count
together with the original filename. -/
theorem c6_uploadToast (r : UploadResponse) (n : Nat)
    (hs : r.success = true) (hn : r.file.num_chunks = some n) :
    handleUploadToast r =
      some ("File uploaded successfully!",
        "Processed " ++ toString n ++ " chunks from " ++
          r.file.original_filename) := by
  simp [handleUploadToast, hs, uploadToastDescription, hn]

/-- C6 witness: the amended theorem applied to a concrete upload response. -/
theorem c6_witness :
    handleUploadToast
        ⟨true, ⟨7, "data.csv", "data.csv", "csv", "2024-01-01", 3, 2, some 42⟩⟩ =
      some ("File uploaded successfully!",
        "Processed 42 chunks from data.csv") := by
  have h := c6_uploadToast
    ⟨true, ⟨7, "data.csv", "data.csv", "csv", "2024-01-01", 3, 2, some 42⟩⟩
    42 rfl rfl
  simpa using h

/-- C9: submitting the chat input invokes `onSend` iff the trimmed input is
non-empty and no request is loading; when invoked, the argument is the
trimmed input and the input state is reset to the empty string; when not
invoked, the input state is left unchanged. -/
theorem c9_chatInputSubmit (input : String) (isLoading : Bool) :
    ((chatInputSubmit input isLoading).1 ≠ none ↔
      (jsTrim input ≠ "" ∧ isLoading = false)) ∧
    (∀ s, (chatInputSubmit input isLoading).1 = some s →
      s = jsTrim input ∧ (chatInputSubmit input isLoading).2 = "") ∧
    ((chatInputSubmit input isLoading).1 = none →
      (chatInputSubmit input isLoading).2 = input) := by
  by_cases h : jsTrim input ≠ "" ∧ isLoading = false
  · have he : chatInputSubmit input isLoading = (some (jsTrim input), "") :=
      if_pos h
    rw [he]
    refine ⟨⟨fun _ => h, fun _ hc => Option.noConfusion hc⟩, ?_, ?_⟩
    · intro s hs
      cases hs
      exact ⟨rfl, rfl⟩
    · intro hs; exact Option.noConfusion hs
  · have he : chatInputSubmit input isLoading = (none, input) := if_neg h
    rw [he]
    refine ⟨⟨fun hne => absurd rfl hne, fun hh => absurd hh h⟩, ?_, fun _ => rfl⟩
    intro s hs; exact Option.noConfusion hs

/-- C9 witness: a non-empty, non-loading submit fires `onSend`. -/
theorem c9_witness : (chatInputSubmit "  hello " false).1 ≠ none :=
  (c9_chatInputSubmit "  hello " false).1.mpr ⟨by decide, rfl⟩

/-- C10: a confirmed, successful deletion leaves the files list a sublist of
the previous one (original order kept), with no remaining entry carrying the
deleted `file_id`, and with every entry whose `file_id` differs kept with its
exact multiplicity; a failed deletion leaves the list unchanged. -/
theorem c10_handleDelete (files : List FileInfo) (fileId : Nat) :
    (handleDelete true files fileId true).Sublist files ∧
    (∀ f ∈ handleDelete true files fileId true, f.file_id ≠ fileId) ∧
    (∀ f : FileInfo, f.file_id ≠ fileId →
      (handleDelete true files fileId true).count f = files.count f) ∧
    handleDelete true files fileId false = files := by
  refine ⟨?_, ?_, ?_, rfl⟩
  · exact List.filter_sublist files
  · intro f hf
    have := List.of_mem_filter hf
    simpa using this
  · intro f hf
    have he : handleDelete true files fileId true =
        files.filter (fun f => decide (f.file_id ≠ fileId)) := rfl
    rw [he, List.count_filter (by simpa using hf)]

/-- C10 witness: the theorem applied to a concrete two-file list. -/
theorem c10_witness :
    (handleDelete true
        [⟨1, "a", "a", "csv", "d", 1, 1, none⟩,
         ⟨2, "b", "b", "csv", "d", 1, 1, none⟩] 1 true).count
      ⟨2, "b", "b", "csv", "d", 1, 1, none⟩ =
    ([⟨1, "a", "a", "csv", "d", 1, 1, none⟩,
      ⟨2, "b", "b", "csv", "d", 1, 1, none⟩] :
        List FileInfo).count ⟨2, "b", "b", "csv", "d", 1, 1, none⟩ :=
  (c10_handleDelete _ 1).2.2.1 _ (by decide)

/-! ### Lemmas about the modelled VectorIndex -/

/-- The candidates are exactly the filtered entries, so the candidate count
is the filtered-collection length. -/
theorem scoredFrom_length (sim : List ℚ → List ℚ → ℚ) (q : List ℚ)
    (filt : Chunk → Bool) :
    ∀ (i : Nat) (coll : Collection),
      (scoredFrom sim q filt i coll).length =
        (coll.filter (fun e => filt e.2)).length := by
  intro i coll
  induction coll generalizing i with
  | nil => rfl
  | cons e es ih =>
    by_cases h : filt e.2
    · simp [scoredFrom, List.filter, h, ih]
    · simp [scoredFrom, List.filter, h, ih]

/-- Every candidate produced from start index `i` carries an index `≥ i`. -/
theorem scoredFrom_le_idx (sim : List ℚ → List ℚ → ℚ) (q : List ℚ)
    (filt : Chunk → Bool) :
    ∀ (i : Nat) (coll : Collection) (x : Scored),
      x ∈ scoredFrom sim q filt i coll → i ≤ x.idx := by
  intro i coll
  induction coll generalizing i with
  | nil => intro x hx; cases hx
  | cons e es ih =>
    intro x hx
    by_cases h : filt e.2
    · rw [scoredFrom, if_pos h] at hx
      rcases List.mem_cons.mp hx with rfl | hx
      · exact Nat.le_refl _
      · exact Nat.le_of_succ_le (ih (i + 1) x hx)
    · rw [scoredFrom, if_neg h] at hx
      exact Nat.le_of_succ_le (ih (i + 1) x hx)

/-- Candidate indices are strictly increasing (insertion order). -/
theorem scoredFrom_pairwise_lt (sim : List ℚ → List ℚ → ℚ) (q : List ℚ)
    (filt : Chunk → Bool) :
    ∀ (i : Nat) (coll : Collection),
      (scoredFrom sim q filt i coll).Pairwise (fun a b => a.idx < b.idx) := by
  intro i coll
  induction coll generalizing i with
  | nil => exact List.Pairwise.nil
  | cons e es ih =>
    by_cases h : filt e.2
    · rw [scoredFrom, if_pos h]
      refine List.Pairwise.cons ?_ (ih (i + 1))
      intro b hb
      exact Nat.lt_of_succ_le (scoredFrom_le_idx sim q filt (i + 1) es b hb)
    · rw [scoredFrom, if_neg h]
      exact ih (i + 1)

/-- C1: for every score function, collection, query, filter and `k ≥ 1`,
`search` succeeds and returns exactly `min k (number of candidates passing
the filter)` results, ordered by non-increasing similarity, with equal
similarities ranked by insertion order (earlier-inserted first). -/
theorem c1_search (sim : List ℚ → List ℚ → ℚ) (coll : Collection)
    (q : List ℚ) (k : Nat) (filt : Chunk → Bool) (hk : 1 ≤ k) :
    ∃ res : List Scored,
      searchRanked sim coll q k filt = some res ∧
      res.length = min k ((coll.filter (fun e => filt e.2)).length) ∧
      res.Pairwise (fun a b =>
        b.score ≤ a.score ∧ (a.score = b.score → a.idx < b.idx)) ∧
      search sim coll q k filt =
        some (res.map (fun e => (e.chunk, e.score))) := by
  have hk0 : k ≠ 0 := Nat.one_le_iff_ne_zero.mp hk
  refine ⟨(List.insertionSort rankLe (scoredFrom sim q filt 0 coll)).take k,
    ?_, ?_, ?_, ?_⟩
  · rw [searchRanked, if_neg hk0]
  · rw [List.length_take,
      (List.perm_insertionSort rankLe (scoredFrom sim q filt 0 coll)).length_eq,
      scoredFrom_length]
  · have hsorted :
        (List.insertionSort rankLe (scoredFrom sim q filt 0 coll)).Pairwise
          rankLe :=
      List.sorted_insertionSort rankLe (scoredFrom sim q filt 0 coll)
    have hperm := List.perm_insertionSort rankLe (scoredFrom sim q filt 0 coll)
    have hne :
        (List.insertionSort rankLe (scoredFrom sim q filt 0 coll)).Pairwise
          (fun a b => a.idx ≠ b.idx) := by
      refine (List.Perm.pairwise_iff (fun h => Ne.symm h) hperm).mpr ?_
      exact (scoredFrom_pairwise_lt sim q filt 0 coll).imp
        (fun h => Nat.ne_of_lt h)
    have hcomb := hsorted.and hne
    refine List.Pairwise.sublist (List.take_sublist k _) (hcomb.imp ?_)
    rintro a b ⟨hr | ⟨heq, hle⟩, hn⟩
    · exact ⟨le_of_lt hr, fun heq2 => absurd hr (by rw [heq2]; exact lt_irrefl _)⟩
    · exact ⟨le_of_eq heq.symm, fun _ => Nat.lt_of_le_of_ne hle hn⟩
  · rw [search, searchRanked, if_neg hk0]
    rfl

/-- C1 witness input: two entries with identical vectors (a similarity tie)
inserted in order. -/
def c1Coll : Collection :=
  [(⟨"e1", [1]⟩, ⟨"c1", 1, "row 1"⟩), (⟨"e2", [1]⟩, ⟨"c2", 1, "row 2"⟩)]

/-- C1 witness: the theorem applied at a concrete collection, query and
`k = 5`. -/
theorem c1_witness :
    searchRanked dotProduct c1Coll [1] 5 (fun _ => true) ≠ none := by
  obtain ⟨res, h1, -, -, -⟩ :=
    c1_search dotProduct c1Coll [1] 5 (fun _ => true) (by decide)
  rw [h1]
  exact fun hc => Option.noConfusion hc

/-- C2: whenever the answer text carries an extractable numeric claim, the
Verifier returns `corrected` together with the recomputed aggregate (not the
model's value) when the stated value is off by more than the relative
tolerance, and `matched` together with the model's value when it is within
tolerance. -/
theorem c2_verify (answerText : String) (agg : Agg) (column : List ℚ)
    (tol : ℚ) (v : ℚ) (hx : extractNumeric answerText = some v) :
    (tol * |applyAgg agg column| < |v - applyAgg agg column| →
      verify answerText agg column tol =
        (VerifyStatus.corrected, some (applyAgg agg column))) ∧
    (|v - applyAgg agg column| ≤ tol * |applyAgg agg column| →
      verify answerText agg column tol = (VerifyStatus.matched, some v)) := by
  constructor
  · intro h
    rw [verify, hx]
    simp only [if_neg (not_le.mpr h)]
  · intro h
    rw [verify, hx]
    simp only [if_pos h]

/-- C2 witness: the §8 scenario table `[100, 200, 50]` with the model stating
345 for the sum: 345 is off from the recomputed 350 by more than the 0.5%
tolerance, so the status is `corrected` and the surfaced value is 350. -/
theorem c2_witness :
    verify "The total is 345" Agg.sum [100, 200, 50] (1 / 200) =
      (VerifyStatus.corrected, some 350) := by
  have hagg : applyAgg Agg.sum [100, 200, 50] = (350 : ℚ) := by
    simp [applyAgg]
    norm_num
  have h :=
    (c2_verify "The total is 345" Agg.sum [100, 200, 50] (1 / 200) 345
      (by decide)).1
  rw [hagg] at h
  refine h ?_
  rw [show (345 : ℚ) - 350 = -5 by norm_num,
    show |(350 : ℚ)| = 350 by norm_num, show |(-5 : ℚ)| = 5 by norm_num]
  norm_num

/-- C3: every question matching a mutation marker (case-insensitive)
classifies as `MUTATION_REQUEST` — regardless of any visualization markers it
also matches — and the pipeline answers it with the fixed-policy refusal,
with no context and without invoking the Generator. -/
theorem c3_classify (q : String) (h : isMutationRequest q = true) :
    classify q = Intent.MUTATION_REQUEST ∧
    ∀ (gen : String → String) (embed : String → List ℚ)
      (sim : List ℚ → List ℚ → ℚ) (coll : Collection) (k : Nat)
      (fileId : Option Nat),
      answerQuestion gen embed sim q coll k fileId =
        ⟨q, refusalMessage, [], false⟩ := by
  have hc : classify q = Intent.MUTATION_REQUEST := by
    rw [classify, if_pos h]
  refine ⟨hc, ?_⟩
  intro gen embed sim coll k fileId
  rw [answerQuestion, hc]

/-- C3 witness: a question matching both a mutation marker ("delete") and a
visualization marker ("plot") classifies as `MUTATION_REQUEST`. -/
theorem c3_witness :
    classify "Please delete all rows and plot them" = Intent.MUTATION_REQUEST ∧
    isVisualization "Please delete all rows and plot them" = true :=
  ⟨(c3_classify "Please delete all rows and plot them" (by decide)).1,
    by decide⟩

/-- C4: against a collection with zero chunks and any `k ≥ 1`, `retrieve`
returns the empty result (not an error); the produced AnswerRecord carries no
context and the Generator is never invoked — the record does not depend on
the generator backend at all — and for a non-mutation question the answer
text is the explicit no-data message. -/
theorem c4_emptyCollection (embed : String → List ℚ)
    (sim : List ℚ → List ℚ → ℚ) (q : String) (k : Nat) (fileId : Option Nat)
    (hk : 1 ≤ k) :
    retrieve embed sim q [] k fileId = some [] ∧
    (∀ gen, (answerQuestion gen embed sim q [] k fileId).context = []) ∧
    (∀ gen, (answerQuestion gen embed sim q [] k fileId).generatorInvoked
      = false) ∧
    (∀ gen gen2, answerQuestion gen embed sim q [] k fileId =
      answerQuestion gen2 embed sim q [] k fileId) ∧
    (isMutationRequest q = false →
      ∀ gen, answerQuestion gen embed sim q [] k fileId =
        ⟨q, noDataMessage, [], false⟩) := by
  have hk0 : k ≠ 0 := Nat.one_le_iff_ne_zero.mp hk
  have hret : retrieve embed sim q [] k fileId = some [] := by
    rw [retrieve, search, searchRanked, if_neg hk0]
    simp [scoredFrom]
  have hmaster : ∀ gen, answerQuestion gen embed sim q [] k fileId =
      if isMutationRequest q then (⟨q, refusalMessage, [], false⟩ : AnswerRecord)
      else ⟨q, noDataMessage, [], false⟩ := by
    intro gen
    by_cases hm : isMutationRequest q
    · rw [if_pos hm, answerQuestion]
      rw [show classify q = Intent.MUTATION_REQUEST from by
        rw [classify, if_pos hm]]
    · rw [if_neg hm, answerQuestion]
      have hc : classify q = if isVisualization q then Intent.VISUALIZATION
          else Intent.INFO_QUERY := by
        rw [classify, if_neg hm]
      by_cases hv : isVisualization q
      · rw [hc, if_pos hv]
        simp [hret]
      · rw [hc, if_neg hv]
        simp [hret]
  refine ⟨hret, ?_, ?_, ?_, ?_⟩
  · intro gen
    rw [hmaster gen]
    by_cases hm : isMutationRequest q
    · rw [if_pos hm]
    · rw [if_neg hm]
  · intro gen
    rw [hmaster gen]
    by_cases hm : isMutationRequest q
    · rw [if_pos hm]
    · rw [if_neg hm]
  · intro gen gen2
    rw [hmaster gen, hmaster gen2]
  · intro hm gen
    rw [hmaster gen, if_neg (by rw [hm]; exact Bool.false_ne_true)]

/-- C4 witness: the theorem applied at a concrete question and empty
collection. -/
theorem c4_witness :
    retrieve (fun _ => [(1 : ℚ)]) (fun _ _ => (0 : ℚ)) "What is the total?"
      [] 5 none = some [] :=
  (c4_emptyCollection (fun _ => [(1 : ℚ)]) (fun _ _ => (0 : ℚ))
    "What is the total?" 5 none (by decide)).1

end AskMyData
